import Mathlib

/-!
Shallow embedding of the calendar/reminder application core
(GoogleCalendarSync.syncCalendar, RemindersPanel, ReminderModal,
GoogleAuthService, notificationService) together with proofs about the
reconciliation merge, the reminder scheduler, the notification fan-out
and the credential lifecycle.

JavaScript strings are modelled as Lean `String`s; JavaScript
truthiness of optional strings / numbers is modelled explicitly
(`undefined`/`null`, the empty string and the number 0 are falsy).
Machine time (`Date.now()`, parsed date-times in milliseconds) is
modelled as `Int`.
-/

/-- Truthiness of a JavaScript string: only `""` is falsy. -/
def jsTruthyStr (s : String) : Bool := s ≠ ""

/-- Truthiness of an optional JavaScript string (`undefined`/`null` and `""` are falsy). -/
def jsTruthyOptStr (o : Option String) : Bool :=
  match o with
  | none => false
  | some s => jsTruthyStr s

/-- Truthiness of an optional JavaScript number (`undefined`/`null` and `0` are falsy). -/
def jsTruthyOptInt (o : Option Int) : Bool :=
  match o with
  | none => false
  | some n => n ≠ 0

/-- JavaScript `x || dflt` for a possibly-absent JavaScript string `x`. -/
def jsOrDefault (o : Option String) (dflt : String) : String :=
  match o with
  | none => dflt
  | some s => if s = "" then dflt else s

/-- JavaScript `String.prototype.split` on a one-character separator, at the level of
character lists: splits at every occurrence, keeping empty segments; the
result is always nonempty. -/
def splitCharL (c : Char) : List Char → List (List Char)
  | [] => [[]]
  | x :: xs =>
    match splitCharL c xs with
    | [] => [[x]]
    | y :: ys => if x = c then [] :: y :: ys else (x :: y) :: ys

/-- JavaScript `s.split(c)`. -/
def jsSplit (c : Char) (s : String) : List String :=
  (splitCharL c s.toList).map List.asString

/-- JavaScript `s.substring(0, n)`. -/
def jsSubstring (s : String) (n : Nat) : String :=
  (s.toList.take n).asString

/-- JavaScript `s.trim()`: strips leading and trailing
whitespace. -/
def jsTrim (s : String) : String :=
  ((s.toList.dropWhile Char.isWhitespace).reverse.dropWhile Char.isWhitespace).reverse.asString

/-- Local calendar event (`Event` in `src/types/index.ts`). -/
structure Event where
  id : String
  title : String
  date : String
  startTime : String
  endTime : String
  description : String
  googleEventId : Option String
deriving DecidableEq

/-- Wrapper `start`/`end` of a remote event (`{ dateTime: string }`). -/
structure GDateTime where
  dateTime : String
deriving DecidableEq

/-- Remote calendar event (`GoogleEvent` in `googleAuthService.ts`). -/
structure GoogleEvent where
  id : String
  summary : String
  description : Option String
  start : GDateTime
  «end» : GDateTime
deriving DecidableEq

/-- The remote-to-local conversion performed inside `syncCalendar`
(`GoogleCalendarSync.tsx`): `id = gEvent.id`, `title = gEvent.summary`,
`description = gEvent.description || ''`,
`date = gEvent.start.dateTime.split('T')[0]`,
`startTime = gEvent.start.dateTime.split('T')[1].substring(0, 5)`,
`endTime = gEvent.end.dateTime.split('T')[1].substring(0, 5)`,
`googleEventId = gEvent.id`. -/
def convertGoogleEvent (g : GoogleEvent) : Event :=
  { id := g.id
    title := g.summary
    description := jsOrDefault g.description ""
    date := (jsSplit 'T' g.start.dateTime).getD 0 ""
    startTime := jsSubstring ((jsSplit 'T' g.start.dateTime).getD 1 "") 5
    endTime := jsSubstring ((jsSplit 'T' g.«end».dateTime).getD 1 "") 5
    googleEventId := some g.id }

/-- The merge of `syncCalendar` (`GoogleCalendarSync.tsx`):
`[...events.filter(e => !e.googleEventId), ...convertedEvents]`. -/
def syncMerge (events : List Event) (googleEvents : List GoogleEvent) : List Event :=
  events.filter (fun e => !jsTruthyOptStr e.googleEventId)
    ++ googleEvents.map convertGoogleEvent

/-- The part of `s` strictly before the first occurrence of `c`
(the whole of `s` when `c` does not occur). -/
def charsBefore (c : Char) (s : String) : String :=
  (s.toList.takeWhile (fun x => x ≠ c)).asString

/-- The first `n` characters of `s` after the first occurrence of `c`. -/
def charsAfterTake (c : Char) (s : String) (n : Nat) : String :=
  (((s.toList.dropWhile (fun x => x ≠ c)).drop 1).take n).asString

/-- Modelled from the spec (§4.3, §8 scenario): the remote-to-local field
mapping stated by the specification — `title = r.summary`, `description =
r.description or empty string`, `date` = the part of `r.start.dateTime`
before `'T'`, `startTime`/`endTime` = the first five characters after `'T'`
of the corresponding `dateTime`, `externalId = r.id`. -/
def specMapRemote (g : GoogleEvent) : Event :=
  { id := g.id
    title := g.summary
    description := jsOrDefault g.description ""
    date := charsBefore 'T' g.start.dateTime
    startTime := charsAfterTake 'T' g.start.dateTime 5
    endTime := charsAfterTake 'T' g.«end».dateTime 5
    googleEventId := some g.id }

/-- Modelled from the spec (§4.3): `merge(L, R) = { l ∈ L : l.externalId = ∅ }
∪ { map(r) : r ∈ R }`, reading `externalId = ∅` as "the external id is
absent". -/
def specMerge (L : List Event) (R : List GoogleEvent) : List Event :=
  L.filter (fun e => decide (e.googleEventId = none)) ++ R.map specMapRemote

/-- The spec merge formula with the local-side filter corrected to the
code's actual test: the external id is absent *or the empty string*
(JavaScript `!e.googleEventId`). -/
def specMergeAmended (L : List Event) (R : List GoogleEvent) : List Event :=
  L.filter (fun e => decide (e.googleEventId = none) || decide (e.googleEventId = some ""))
    ++ R.map specMapRemote

/-- A date-time string is well formed for the split-based field extraction
when it contains exactly one `'T'`. -/
def oneT (s : String) : Prop := s.toList.count 'T' = 1

instance (s : String) : Decidable (oneT s) := by
  unfold oneT; infer_instance

lemma splitCharL_ne_nil (c : Char) (l : List Char) : splitCharL c l ≠ [] := by
  cases l with
  | nil => simp [splitCharL]
  | cons x xs =>
    simp only [splitCharL]
    cases h : splitCharL c xs with
    | nil => simp
    | cons y ys =>
      by_cases hx : x = c <;> simp [hx]

lemma splitCharL_count_zero (c : Char) (l : List Char) (h : l.count c = 0) :
    splitCharL c l = [l] := by
  induction l with
  | nil => rfl
  | cons x xs ih =>
    rw [List.count_cons] at h
    have hx : ¬ x = c := by
      intro hxc
      simp [hxc] at h
    have hxs : xs.count c = 0 := by
      simp [hx] at h
      omega
    simp [splitCharL, ih hxs, hx]

lemma splitCharL_count_one (c : Char) (l : List Char) (h : l.count c = 1) :
    splitCharL c l = [l.takeWhile (fun x => x ≠ c), (l.dropWhile (fun x => x ≠ c)).drop 1] := by
  induction l with
  | nil => simp at h
  | cons x xs ih =>
    rw [List.count_cons] at h
    by_cases hx : x = c
    · subst hx
      have hxs : xs.count x = 0 := by
        simp at h
        omega
      simp [splitCharL, splitCharL_count_zero x xs hxs, List.takeWhile, List.dropWhile]
    · have hxs : xs.count c = 1 := by
        simp [hx] at h
        omega
      rw [splitCharL] at *
      rw [ih hxs]
      simp [hx, List.takeWhile, List.dropWhile]

lemma toList_asString (l : List Char) : l.asString.toList = l := rfl

lemma convert_eq_specMap (g : GoogleEvent) (h1 : oneT g.start.dateTime)
    (h2 : oneT g.«end».dateTime) : convertGoogleEvent g = specMapRemote g := by
  unfold convertGoogleEvent specMapRemote jsSplit jsSubstring charsBefore charsAfterTake
  rw [splitCharL_count_one 'T' _ h1, splitCharL_count_one 'T' _ h2]
  simp [toList_asString]
  exact ⟨rfl, rfl⟩

lemma not_truthy_iff (o : Option String) :
    (!jsTruthyOptStr o) = (decide (o = none) || decide (o = some "")) := by
  cases o with
  | none => rfl
  | some s => by_cases h : s = "" <;> simp [jsTruthyOptStr, jsTruthyStr, h]

/-- Local event of the §8 sync scenario. -/
def standupLocal : Event :=
  { id := "1", title := "Standup", date := "2024-01-10", startTime := "",
    endTime := "", description := "", googleEventId := none }

/-- Remote event of the §8 sync scenario. -/
def planningRemote : GoogleEvent :=
  { id := "g1", summary := "Planning", description := none,
    start := ⟨"2024-01-11T10:00:00"⟩, «end» := ⟨"2024-01-11T11:00:00"⟩ }

/-- Expected converted form of `planningRemote`. -/
def planningConverted : Event :=
  { id := "g1", title := "Planning", date := "2024-01-11", startTime := "10:00",
    endTime := "11:00", description := "", googleEventId := some "g1" }

/-- A local event whose external id is present but the empty string:
JavaScript `!e.googleEventId` treats it as absent. -/
def emptyGidLocal : Event :=
  { id := "1", title := "Standup", date := "2024-01-10", startTime := "",
    endTime := "", description := "", googleEventId := some "" }

/-- C1 counterexample: with a local event carrying the *empty-string*
external id, the code's merge keeps the event (JavaScript truthiness)
while the spec formula `{ l ∈ L : l.externalId = ∅ }`, read as "external
id absent", drops it — so the merge is not exactly that union. -/
theorem syncMerge_spec_formula_cex :
    syncMerge [emptyGidLocal] [] ≠ specMerge [emptyGidLocal] [] := by
  decide

/-- C1 (amended): for remote lists whose date-times contain exactly one
`'T'`, the merge equals the spec union with the local-side filter read as
"external id absent **or empty**"; and on the §8 scenario inputs the
merged list is exactly the stated two-element expected set. -/
theorem syncMerge_matches_spec_formula :
    (∀ (L : List Event) (R : List GoogleEvent),
        (∀ g ∈ R, oneT g.start.dateTime ∧ oneT g.«end».dateTime) →
        syncMerge L R = specMergeAmended L R) ∧
    syncMerge [standupLocal] [planningRemote] = [standupLocal, planningConverted] := by
  constructor
  · intro L R h
    unfold syncMerge specMergeAmended
    congr 1
    · exact List.filter_congr (fun e _ => not_truthy_iff e.googleEventId)
    · exact List.map_congr_left (fun g hg => convert_eq_specMap g (h g hg).1 (h g hg).2)
  · decide

/-- C1 witness: the amended merge equation instantiated on the concrete
§8 scenario inputs. -/
theorem syncMerge_matches_spec_formula_witness :
    syncMerge [standupLocal] [planningRemote] = specMergeAmended [standupLocal] [planningRemote] :=
  syncMerge_matches_spec_formula.1 [standupLocal] [planningRemote] (by decide)

/-- C4: re-running the merge against an unchanged remote input yields the
same set of events: `merge(merge(L,R), R) = merge(L,R)` element-wise. -/
theorem syncMerge_idempotent :
    ∀ (L : List Event) (R : List GoogleEvent) (e : Event),
      e ∈ syncMerge (syncMerge L R) R ↔ e ∈ syncMerge L R := by
  intro L R e
  simp only [syncMerge, List.mem_append, List.mem_filter]
  tauto

/-- Remote event `g1`/`A` used in the duplicate-id counterexample. -/
def remoteA : GoogleEvent :=
  { id := "g1", summary := "A", description := none,
    start := ⟨"2024-01-11T10:00:00"⟩, «end» := ⟨"2024-01-11T11:00:00"⟩ }

/-- Remote event `g1`/`B` used in the duplicate-id counterexample. -/
def remoteB : GoogleEvent :=
  { id := "g1", summary := "B", description := none,
    start := ⟨"2024-01-11T10:00:00"⟩, «end» := ⟨"2024-01-11T11:00:00"⟩ }

/-- C7 counterexample: a remote list carrying the same id `"g1"` twice
with different summaries merges to *two* distinct events with external id
`"g1"` — not "exactly one entry per distinct external id", and the
external id does not identify at most one merged event. -/
theorem syncMerge_extid_unique_cex :
    (syncMerge [] [remoteA, remoteB]).countP
        (fun e => decide (e.googleEventId = some "g1")) = 2 ∧
      convertGoogleEvent remoteA ≠ convertGoogleEvent remoteB := by
  decide

lemma countP_id_eq_one (R : List GoogleEvent) (gid : String)
    (hnd : (R.map GoogleEvent.id).Nodup) (hgid : gid ∈ R.map GoogleEvent.id) :
    R.countP (fun g => decide (GoogleEvent.id g = gid)) = 1 := by
  induction R with
  | nil => simp at hgid
  | cons g R ih =>
    rw [List.map_cons, List.nodup_cons] at hnd
    rw [List.map_cons, List.mem_cons] at hgid
    rw [List.countP_cons]
    cases hgid with
    | inl heq =>
      have hzero : R.countP (fun g => decide (GoogleEvent.id g = gid)) = 0 := by
        rw [List.countP_eq_zero]
        intro g' hg'
        simp only [decide_eq_true_eq]
        intro hcon
        exact hnd.1 (heq ▸ hcon ▸ List.mem_map_of_mem GoogleEvent.id hg')
      rw [hzero, heq]
      simp
    | inr hmem =>
      have hne : ¬ GoogleEvent.id g = gid := by
        intro hcon
        exact hnd.1 (hcon ▸ hmem)
      simp [hne, ih hnd.2 hmem]

/-- C7 (amended): when the remote list's ids are pairwise distinct and
nonempty, the merged output has exactly one entry per distinct external
id of `R`, and still contains every local entry whose external id is
JavaScript-falsy (absent or empty). -/
theorem syncMerge_extid_unique (L : List Event) (R : List GoogleEvent)
    (hnd : (R.map GoogleEvent.id).Nodup) (hne : ∀ g ∈ R, g.id ≠ "") :
    (∀ gid ∈ R.map GoogleEvent.id,
        (syncMerge L R).countP (fun e => decide (e.googleEventId = some gid)) = 1) ∧
    (∀ l ∈ L, jsTruthyOptStr l.googleEventId = false → l ∈ syncMerge L R) := by
  constructor
  · intro gid hgid
    have hgg : gid ≠ "" := by
      obtain ⟨g, hgR, rfl⟩ := List.mem_map.mp hgid
      exact hne g hgR
    unfold syncMerge
    rw [List.countP_append]
    have h0 : (L.filter (fun e => !jsTruthyOptStr e.googleEventId)).countP
        (fun e => decide (e.googleEventId = some gid)) = 0 := by
      rw [List.countP_eq_zero]
      intro e he
      have hkeep := (List.mem_filter.mp he).2
      cases hgi : e.googleEventId with
      | none => simp [hgi]
      | some s =>
        have hs : s = "" := by
          rw [hgi] at hkeep
          simpa [jsTruthyOptStr, jsTruthyStr] using hkeep
        simp [hgi, hs]
        intro hcon
        exact hgg hcon.symm
    have h1 : (R.map convertGoogleEvent).countP
        (fun e => decide (e.googleEventId = some gid)) = 1 := by
      rw [List.countP_map]
      have hcomp : ∀ g ∈ R,
          (((fun e => decide (e.googleEventId = some gid)) ∘ convertGoogleEvent) g = true
            ↔ decide (GoogleEvent.id g = gid) = true) := by
        intro g _
        simp [convertGoogleEvent]
      rw [List.countP_congr hcomp]
      exact countP_id_eq_one R gid hnd hgid
    omega
  · intro l hl hfalse
    exact List.mem_append_left _ (List.mem_filter.mpr ⟨hl, by simp [hfalse]⟩)

/-- C7 witness: the amended uniqueness instantiated on the concrete
scenario remote list. -/
theorem syncMerge_extid_unique_witness :
    (syncMerge [standupLocal] [planningRemote]).countP
      (fun e => decide (e.googleEventId = some "g1")) = 1 :=
  (syncMerge_extid_unique [standupLocal] [planningRemote] (by decide) (by decide)).1
    "g1" (by decide)

/-- Reminder (`Reminder` in `src/types/index.ts`). -/
structure Reminder where
  id : String
  title : String
  date : String
  time : String
  description : Option String
  isComplete : Bool
  notificationSent : Bool
  emailNotification : Bool
  smsNotification : Bool
  phoneNumber : Option String
deriving DecidableEq

/-- The due test `isAfter(now, parseISO(date + T + time))` from
`checkReminders` (`RemindersPanel.tsx`). `parseDT` models the external
date-fns `parseISO` (milliseconds since epoch); `isAfter` is a *strict*
comparison. -/
def reminderDue (parseDT : String → Int) (now : Int) (r : Reminder) : Bool :=
  decide (now > parseDT (r.date ++ "T" ++ r.time))

/-- The per-reminder body of the `reminders.map` in `checkReminders`:
an unsent, incomplete, due reminder comes back with
`notificationSent: true`; every other reminder is returned unchanged. -/
def stepReminder (parseDT : String → Int) (now : Int) (r : Reminder) : Reminder :=
  if !r.notificationSent && !r.isComplete then
    if reminderDue parseDT now r then { r with notificationSent := true } else r
  else r

/-- Whether the pass invokes `sendNotification` for `r` (the code calls it
exactly on the unsent, incomplete, due branch). -/
def reminderDispatched (parseDT : String → Int) (now : Int) (r : Reminder) : Bool :=
  !r.notificationSent && !r.isComplete && reminderDue parseDT now r

/-- One due-check pass over the collection (`checkReminders`). -/
def checkReminders (parseDT : String → Int) (now : Int) (rs : List Reminder) : List Reminder :=
  rs.map (stepReminder parseDT now)

/-- The reminders for which the pass invokes the notification dispatch. -/
def dispatchedReminders (parseDT : String → Int) (now : Int) (rs : List Reminder) : List Reminder :=
  rs.filter (reminderDispatched parseDT now)

/-- The write-back condition of `checkReminders`:
`updatedReminders.some((r, i) => r.notificationSent !== reminders[i].notificationSent)`. -/
def remindersChanged (parseDT : String → Int) (now : Int) (rs : List Reminder) : Bool :=
  ((checkReminders parseDT now rs).zip rs).any
    (fun p => p.1.notificationSent != p.2.notificationSent)

/-- A sequence of due-check passes at the given clock readings. -/
def runChecks (parseDT : String → Int) (times : List Int) (rs : List Reminder) : List Reminder :=
  times.foldl (fun acc t => checkReminders parseDT t acc) rs

/-- A degenerate concrete clock model: every date-time string parses to
instant `0`. It realises a pass whose `Date.now()` reading coincides
exactly with a reminder's due instant. -/
def parseZero : String → Int := fun _ => 0

/-- Concrete unsent, incomplete reminder used in scheduler witnesses. -/
def remPending : Reminder :=
  { id := "r1", title := "Standup", date := "2024-01-10", time := "10:00",
    description := none, isComplete := false, notificationSent := false,
    emailNotification := false, smsNotification := false, phoneNumber := none }

/-- C2 counterexample: at the *first* pass where `now ≥ combine(date,time)`
— here `now = combine(date,time)` exactly — the code (strict `isAfter`)
does **not** dispatch and leaves `notificationSent = false`, contradicting
the claim's `now ≥` trigger. -/
theorem reminder_flag_cex :
    remPending.isComplete = false ∧ remPending.notificationSent = false ∧
      (0 : Int) ≥ parseZero (remPending.date ++ "T" ++ remPending.time) ∧
      checkReminders parseZero 0 [remPending] = [remPending] ∧
      dispatchedReminders parseZero 0 [remPending] = [] := by
  decide

lemma stepReminder_of_sent (parseDT : String → Int) (now : Int) (r : Reminder)
    (h : r.notificationSent = true) : stepReminder parseDT now r = r := by
  simp [stepReminder, h]

lemma stepReminder_quiet (parseDT : String → Int) (now : Int) (r : Reminder)
    (h : reminderDue parseDT now r = false) : stepReminder parseDT now r = r := by
  unfold stepReminder
  rw [h]
  simp

lemma runChecks_quiet (parseDT : String → Int) (ts : List Int) (r : Reminder)
    (h : ∀ u ∈ ts, u ≤ parseDT (r.date ++ "T" ++ r.time)) :
    runChecks parseDT ts [r] = [r] := by
  induction ts with
  | nil => rfl
  | cons t ts ih =>
    have hd : reminderDue parseDT t r = false := by
      simp only [reminderDue, decide_eq_false_iff_not, not_lt]
      exact h t (List.mem_cons_self t ts)
    show runChecks parseDT ts (checkReminders parseDT t [r]) = [r]
    rw [show checkReminders parseDT t [r] = [r] by
      simp [checkReminders, stepReminder_quiet parseDT t r hd]]
    exact ih (fun u hu => h u (List.mem_cons_of_mem t hu))

lemma runChecks_sent (parseDT : String → Int) (ts : List Int) (r : Reminder)
    (h : r.notificationSent = true) : runChecks parseDT ts [r] = [r] := by
  induction ts with
  | nil => rfl
  | cons t ts ih =>
    show runChecks parseDT ts (checkReminders parseDT t [r]) = [r]
    rw [show checkReminders parseDT t [r] = [r] by
      simp [checkReminders, stepReminder_of_sent parseDT t r h]]
    exact ih

/-- C2 (amended): for an incomplete, unsent reminder, `notificationSent`
stays `false` on every pass whose clock reading is at most the due
instant (in particular while `now < combine(date,time)`); on the first
pass with `now > combine(date,time)` — strict, per `isAfter` — the
dispatch is invoked and the flag becomes `true`; afterwards the flag
stays `true` and the dispatch is never invoked again for that reminder. -/
theorem reminder_flag_transition (parseDT : String → Int) (r : Reminder)
    (ts₁ : List Int) (t : Int) (ts₂ : List Int)
    (hc : r.isComplete = false) (hs : r.notificationSent = false)
    (h₁ : ∀ u ∈ ts₁, u ≤ parseDT (r.date ++ "T" ++ r.time))
    (ht : t > parseDT (r.date ++ "T" ++ r.time)) :
    runChecks parseDT ts₁ [r] = [r] ∧
    dispatchedReminders parseDT t [r] = [r] ∧
    checkReminders parseDT t [r] = [{ r with notificationSent := true }] ∧
    (∀ u : Int,
      checkReminders parseDT u [{ r with notificationSent := true }]
          = [{ r with notificationSent := true }] ∧
      dispatchedReminders parseDT u [{ r with notificationSent := true }] = []) ∧
    runChecks parseDT (ts₁ ++ t :: ts₂) [r] = [{ r with notificationSent := true }] := by
  have hdue : reminderDue parseDT t r = true := by
    simpa [reminderDue] using ht
  have hq := runChecks_quiet parseDT ts₁ r h₁
  have hfire : checkReminders parseDT t [r] = [{ r with notificationSent := true }] := by
    simp [checkReminders, stepReminder, hs, hc, hdue]
  refine ⟨hq, ?_, hfire, ?_, ?_⟩
  · simp [dispatchedReminders, reminderDispatched, hs, hc, hdue]
  · intro u
    constructor
    · simp [checkReminders, stepReminder]
    · simp [dispatchedReminders, reminderDispatched]
  · unfold runChecks
    rw [List.foldl_append]
    show runChecks parseDT (t :: ts₂) (runChecks parseDT ts₁ [r])
        = [{ r with notificationSent := true }]
    rw [hq]
    show runChecks parseDT ts₂ (checkReminders parseDT t [r])
        = [{ r with notificationSent := true }]
    rw [hfire]
    exact runChecks_sent parseDT ts₂ _ rfl

/-- C2 witness: the transition theorem instantiated with the zero clock
model, quiet passes at `-5` and `0`, the firing pass at `3`, and a later
pass at `7`. -/
theorem reminder_flag_transition_witness :
    runChecks parseZero [-5, 0] [remPending] = [remPending] ∧
    dispatchedReminders parseZero 3 [remPending] = [remPending] ∧
    checkReminders parseZero 3 [remPending]
        = [{ remPending with notificationSent := true }] ∧
    (∀ u : Int,
      checkReminders parseZero u [{ remPending with notificationSent := true }]
          = [{ remPending with notificationSent := true }] ∧
      dispatchedReminders parseZero u [{ remPending with notificationSent := true }] = []) ∧
    runChecks parseZero ([-5, 0] ++ 3 :: [7]) [remPending]
        = [{ remPending with notificationSent := true }] :=
  reminder_flag_transition parseZero remPending [-5, 0] 3 [7] rfl rfl
    (by decide) (by decide)

lemma stepReminder_eq_self_iff (parseDT : String → Int) (now : Int) (r : Reminder) :
    stepReminder parseDT now r = r
      ↔ (stepReminder parseDT now r).notificationSent = r.notificationSent := by
  constructor
  · intro h
    rw [h]
  · intro h
    unfold stepReminder at *
    by_cases hs : r.notificationSent
    · simp [hs]
    · by_cases hc : r.isComplete
      · simp [hs, hc]
      · by_cases hd : reminderDue parseDT now r
        · rw [if_pos (by simp [hs, hc]), if_pos hd] at h
          simp [hs] at h
        · simp [hs, hc, hd]

/-- C10: a due-check pass leaves every reminder which is complete, already
notified, or not yet due entirely unchanged; and the write-back condition
of the pass holds exactly when the pass changed the collection at all
(the `notificationSent` flag being the only field a pass can change). -/
theorem checkReminders_frame (parseDT : String → Int) (now : Int) (rs : List Reminder) :
    (∀ r ∈ rs,
      (r.isComplete = true ∨ r.notificationSent = true ∨ reminderDue parseDT now r = false) →
      stepReminder parseDT now r = r) ∧
    (remindersChanged parseDT now rs = true ↔ checkReminders parseDT now rs ≠ rs) := by
  constructor
  · intro r _ h
    rcases h with h | h | h
    · simp [stepReminder, h]
    · exact stepReminder_of_sent parseDT now r h
    · exact stepReminder_quiet parseDT now r h
  · unfold remindersChanged checkReminders
    induction rs with
    | nil => simp
    | cons r rs ih =>
      simp only [List.map_cons, List.zip_cons_cons, List.any_cons, Bool.or_eq_true,
        bne_iff_ne, ne_eq]
      constructor
      · intro h
        rcases h with h | h
        · intro hcon
          rw [List.cons_eq_cons] at hcon
          exact h (congrArg Reminder.notificationSent hcon.1)
        · have := ih.mp h
          intro hcon
          rw [List.cons_eq_cons] at hcon
          exact this hcon.2
      · intro h
        by_cases hflag : (stepReminder parseDT now r).notificationSent = r.notificationSent
        · right
          apply ih.mpr
          intro hcon
          exact h (by rw [hcon, (stepReminder_eq_self_iff parseDT now r).mpr hflag])
        · exact Or.inl hflag

/-- C10 witness: on a collection whose only reminder is already notified,
the pass changes nothing and the write-back condition is false. -/
theorem checkReminders_frame_witness :
    stepReminder parseZero 7 { remPending with notificationSent := true }
        = { remPending with notificationSent := true } ∧
    remindersChanged parseZero 7 [{ remPending with notificationSent := true }] = false := by
  have h := checkReminders_frame parseZero 7 [{ remPending with notificationSent := true }]
  refine ⟨h.1 _ (List.mem_singleton_self _) (Or.inr (Or.inl rfl)), ?_⟩
  have h2 := h.2
  rw [show checkReminders parseZero 7 [{ remPending with notificationSent := true }]
      = [{ remPending with notificationSent := true }] by decide] at h2
  simp at h2
  exact h2

/-- The `reminderData` object built by `ReminderModal.handleSubmit`
(`ReminderModal.tsx`): trimmed title/description, `isComplete: false`,
`notificationSent: false`, phone number kept only when SMS is enabled;
the `id` is spread in afterwards for the edit path. -/
def buildReminderData (title date time description : String)
    (emailN smsN : Bool) (phone : String) (id : String) : Reminder :=
  { id := id
    title := jsTrim title
    date := date
    time := time
    description := some (jsTrim description)
    isComplete := false
    notificationSent := false
    emailNotification := emailN
    smsNotification := smsN
    phoneNumber := if smsN then some phone else none }

/-- Model of `ReminderModal.handleSubmit` on the edit path: aborts (no save) when
the trimmed title, the date or the time is empty
(`!title.trim() || !date || !time`); otherwise saves
`{ ...reminderData, id: editingReminder.id }`. -/
def reminderModalSubmitEdit (title date time description : String)
    (emailN smsN : Bool) (phone : String) (editingId : String) : Option Reminder :=
  if jsTrim title = "" ∨ date = "" ∨ time = "" then none
  else some (buildReminderData title date time description emailN smsN phone editingId)

/-- Model of `handleUpdateReminder` (`RemindersPanel.tsx`): replaces every stored
reminder whose id equals the updated reminder's id by the updated
reminder, leaving the rest untouched. -/
def handleUpdateReminder (reminders : List Reminder) (updatedReminder : Reminder) :
    List Reminder :=
  reminders.map (fun r => if r.id = updatedReminder.id then updatedReminder else r)

/-- C9: a reminder update that goes through the modal save (with a changed
date or time) always stores a reminder whose `notificationSent` flag is
`false` — the modal rebuilds the payload with `notificationSent: false`
unconditionally, and `handleUpdateReminder` stores it verbatim — so a
rescheduled reminder fires again. -/
theorem update_resets_notification_flag (title date time description : String)
    (emailN smsN : Bool) (phone : String) (editing : Reminder)
    (rs : List Reminder) (upd : Reminder)
    (hsubmit : reminderModalSubmitEdit title date time description emailN smsN phone
        editing.id = some upd)
    (hchanged : date ≠ editing.date ∨ time ≠ editing.time) :
    upd.notificationSent = false ∧
    ∀ r ∈ handleUpdateReminder rs upd, r.id = editing.id → r.notificationSent = false := by
  unfold reminderModalSubmitEdit at hsubmit
  by_cases hvalid : jsTrim title = "" ∨ date = "" ∨ time = ""
  · rw [if_pos hvalid] at hsubmit
    exact absurd hsubmit (by simp)
  · rw [if_neg hvalid] at hsubmit
    have hupd : upd = buildReminderData title date time description emailN smsN phone
        editing.id := by
      exact (Option.some_inj.mp hsubmit).symm
    have hflag : upd.notificationSent = false := by
      rw [hupd]
      rfl
    have hid : upd.id = editing.id := by
      rw [hupd]
      rfl
    refine ⟨hflag, ?_⟩
    intro r hr hrid
    unfold handleUpdateReminder at hr
    obtain ⟨r₀, hr₀, hmap⟩ := List.mem_map.mp hr
    by_cases heq : r₀.id = upd.id
    · rw [if_pos heq] at hmap
      rw [← hmap]
      exact hflag
    · rw [if_neg heq] at hmap
      rw [← hmap] at hrid
      exact absurd (hrid.trans hid.symm) heq

/-- C9 witness: a concrete edit of `remPending`, already notified, moved
to a new date: the reminder the modal saves has `notificationSent = false`. -/
theorem update_resets_notification_flag_witness :
    (buildReminderData "Standup" "2024-02-01" "10:00" "" false false ""
        remPending.id).notificationSent = false :=
  (update_resets_notification_flag "Standup" "2024-02-01" "10:00" "" false false ""
    remPending [{ remPending with notificationSent := true }]
    (buildReminderData "Standup" "2024-02-01" "10:00" "" false false "" remPending.id)
    (by decide) (Or.inl (by decide))).1

/-- Delivery channels of `sendNotification` (`RemindersPanel.tsx`). -/
inductive Channel where
  | localAlert
  | email
  | sms
deriving DecidableEq

/-- Per-channel outcome: the attempt succeeded, was skipped (permission
missing / service unconfigured, `sent = false`), or failed (an exception
that the per-channel `try`/`catch` swallowed). -/
inductive ChannelOutcome where
  | success
  | skipped
  | failure (msg : String)
deriving DecidableEq

/-- Environment of one dispatch: what the browser notification API and
the email/SMS helpers would do. `Except.ok b` models the helper resolving
with `b` (`sendEmailNotification`/`sendSMSNotification` return a boolean);
`Except.error m` models the helper call throwing. -/
structure NotifEnv where
  browserGranted : Bool
  browserThrows : Option String
  emailSend : Except String Bool
  smsSend : Except String Bool

/-- The browser-notification block of `sendNotification`: guarded by the
permission check, wrapped in its own `try`/`catch`. -/
def localAlertOutcome (env : NotifEnv) : ChannelOutcome :=
  if env.browserGranted then
    match env.browserThrows with
    | some m => ChannelOutcome.failure m
    | none => ChannelOutcome.success
  else ChannelOutcome.skipped

/-- One helper-channel block of `sendNotification`: `sent = true` is a
success, `sent = false` is logged and skipped, a thrown error is caught
and recorded. -/
def channelAttempt (res : Except String Bool) : ChannelOutcome :=
  match res with
  | Except.ok true => ChannelOutcome.success
  | Except.ok false => ChannelOutcome.skipped
  | Except.error m => ChannelOutcome.failure m

/-- Model of `sendNotification` (`RemindersPanel.tsx`): attempts the browser alert,
then — when enabled — the email channel, then — when enabled and a phone
number is truthy (`reminder.smsNotification && reminder.phoneNumber`:
absent and empty-string numbers are falsy) — the SMS channel; each block
has its own `try`/`catch`, so the function always runs to the end and
returns every attempt's outcome in code order. -/
def sendNotification (env : NotifEnv) (r : Reminder) : List (Channel × ChannelOutcome) :=
  [(Channel.localAlert, localAlertOutcome env)]
    ++ (if r.emailNotification then [(Channel.email, channelAttempt env.emailSend)] else [])
    ++ (if r.smsNotification && jsTruthyOptStr r.phoneNumber then
          [(Channel.sms, channelAttempt env.smsSend)] else [])

/-- C3: for a due, unsent, incomplete reminder with all three channels
enabled, the dispatch attempts local, email and SMS in every environment,
each outcome depending only on its own channel's environment — so one
channel's failure cannot prevent the others from being attempted — and
the scheduler's pass marks the reminder `notificationSent = true`
independently of the dispatch environment altogether. -/
theorem dispatch_fanout_isolated (env : NotifEnv) (parseDT : String → Int) (now : Int)
    (r : Reminder) (he : r.emailNotification = true) (hsm : r.smsNotification = true)
    (hp : jsTruthyOptStr r.phoneNumber = true) (hs : r.notificationSent = false)
    (hc : r.isComplete = false) (hd : reminderDue parseDT now r = true) :
    sendNotification env r =
      [(Channel.localAlert, localAlertOutcome env),
       (Channel.email, channelAttempt env.emailSend),
       (Channel.sms, channelAttempt env.smsSend)] ∧
    (stepReminder parseDT now r).notificationSent = true := by
  constructor
  · simp [sendNotification, he, hsm, hp]
  · simp [stepReminder, hs, hc, hd]

/-- Concrete reminder with all three channels enabled. -/
def remAllChannels : Reminder :=
  { id := "r2", title := "Call", date := "2024-01-10", time := "10:00",
    description := none, isComplete := false, notificationSent := false,
    emailNotification := true, smsNotification := true,
    phoneNumber := some "+15550100" }

/-- Environment of the §8 dispatch scenario: browser alert succeeds, the
email helper fails (`ChannelFailure`), the SMS helper succeeds. -/
def envEmailFails : NotifEnv :=
  { browserGranted := true, browserThrows := none,
    emailSend := Except.error "ChannelFailure", smsSend := Except.ok true }

/-- C3 witness: with the email channel failing, local and SMS still
report success and the due reminder is still marked sent. -/
theorem dispatch_fanout_isolated_witness :
    sendNotification envEmailFails remAllChannels =
      [(Channel.localAlert, localAlertOutcome envEmailFails),
       (Channel.email, channelAttempt envEmailFails.emailSend),
       (Channel.sms, channelAttempt envEmailFails.smsSend)] ∧
    (stepReminder parseZero 3 remAllChannels).notificationSent = true :=
  dispatch_fanout_isolated envEmailFails parseZero 3 remAllChannels
    rfl rfl rfl rfl rfl (by decide)

/-- The mutable credential of `GoogleAuthService`
(`this.accessToken`, `this.tokenExpiry`). -/
structure AuthState where
  accessToken : Option String
  tokenExpiry : Option Int
deriving DecidableEq

/-- Parsed `error.error` object of a calendar error body
(`{error:{code, status, message}}`). -/
structure CalendarHttpError where
  code : Option Int
  status : Option String
  message : Option String
deriving DecidableEq

/-- HTTP response of the calendar *list* call, as `getEvents` inspects it:
`response.ok`, the error body otherwise, and `data.items` (possibly
absent) on success. -/
structure ListResponse where
  ok : Bool
  error : CalendarHttpError
  items : Option (List GoogleEvent)
deriving DecidableEq

/-- HTTP response of the calendar *create* call, as `addEvent` inspects it. -/
structure CreateResponse where
  ok : Bool
  error : CalendarHttpError
  created : GoogleEvent
deriving DecidableEq

/-- Result of an auth-service call, with ghost counters instrumenting how
many OAuth token requests and how many calendar HTTP requests the call
issued. -/
structure CallResult (α : Type) where
  state : AuthState
  outcome : Except String α
  tokenRequests : Nat
  calendarRequests : Nat

/-- The refresh condition of `refreshTokenIfNeeded`
(`googleAuthService.ts`):
`!this.tokenExpiry || Date.now() >= this.tokenExpiry - 60000`. -/
def refreshNeeded (now : Int) (st : AuthState) : Bool :=
  !jsTruthyOptInt st.tokenExpiry || decide (now ≥ st.tokenExpiry.getD 0 - 60000)

/-- Outcome of one `requestAccess()` as the callback applies it:
`Except.ok (tok, expiresIn)` sets `accessToken = tok` and
`tokenExpiry = Date.now() + expiresIn * 1000`; `Except.error m` is
the OAuth rejection (`response.error`). -/
def applyRequestAccess (res : Except String (String × Int)) (now : Int) (st : AuthState) :
    AuthState × Except String Unit :=
  match res with
  | Except.ok (tok, expiresIn) =>
    ({ accessToken := some tok, tokenExpiry := some (now + expiresIn * 1000) }, Except.ok ())
  | Except.error m => (st, Except.error m)

/-- Model of `refreshTokenIfNeeded` (`googleAuthService.ts`): runs `requestAccess`
exactly when `refreshNeeded`; the third component counts the token
requests issued. -/
def refreshTokenIfNeeded (res : Except String (String × Int)) (now : Int) (st : AuthState) :
    AuthState × Except String Unit × Nat :=
  if refreshNeeded now st then
    let (st', out) := applyRequestAccess res now st
    (st', out, 1)
  else (st, Except.ok (), 0)

/-- Whether the error body triggers the invalidation path:
`error.error?.status === 'UNAUTHENTICATED' || error.error?.code === 401`. -/
def isUnauthError (e : CalendarHttpError) : Bool :=
  decide (e.status = some "UNAUTHENTICATED") || decide (e.code = some 401)

/-- Model of `getEvents` (`googleAuthService.ts`): refresh-if-needed, then the
`!this.accessToken` guard, then one fetch; on a non-ok response the
401-class check clears the credential and throws `'authentication
expired'`, otherwise the error message (or its default) is thrown;
on success `data.items || []` is returned. No retry is performed. -/
def getEvents (refreshRes : Except String (String × Int)) (resp : ListResponse)
    (now : Int) (st : AuthState) : CallResult (List GoogleEvent) :=
  match refreshTokenIfNeeded refreshRes now st with
  | (st', Except.error m, k) =>
    { state := st', outcome := Except.error m, tokenRequests := k, calendarRequests := 0 }
  | (st', Except.ok _, k) =>
    if !jsTruthyOptStr st'.accessToken then
      { state := st', outcome := Except.error "Not authenticated with Google Calendar",
        tokenRequests := k, calendarRequests := 0 }
    else if resp.ok then
      { state := st', outcome := Except.ok (resp.items.getD []),
        tokenRequests := k, calendarRequests := 1 }
    else if isUnauthError resp.error then
      { state := { accessToken := none, tokenExpiry := none },
        outcome := Except.error "authentication expired",
        tokenRequests := k, calendarRequests := 1 }
    else
      { state := st', outcome := Except.error (jsOrDefault resp.error.message "Failed to fetch events"),
        tokenRequests := k, calendarRequests := 1 }

/-- Model of `addEvent` (`googleAuthService.ts`): same credential handling as
`getEvents`, one create request, same 401-class invalidation; on success
the provider's created event is returned. -/
def addEvent (refreshRes : Except String (String × Int)) (resp : CreateResponse)
    (now : Int) (st : AuthState) : CallResult GoogleEvent :=
  match refreshTokenIfNeeded refreshRes now st with
  | (st', Except.error m, k) =>
    { state := st', outcome := Except.error m, tokenRequests := k, calendarRequests := 0 }
  | (st', Except.ok _, k) =>
    if !jsTruthyOptStr st'.accessToken then
      { state := st', outcome := Except.error "Not authenticated with Google Calendar",
        tokenRequests := k, calendarRequests := 0 }
    else if resp.ok then
      { state := st', outcome := Except.ok resp.created,
        tokenRequests := k, calendarRequests := 1 }
    else if isUnauthError resp.error then
      { state := { accessToken := none, tokenExpiry := none },
        outcome := Except.error "authentication expired",
        tokenRequests := k, calendarRequests := 1 }
    else
      { state := st', outcome := Except.error (jsOrDefault resp.error.message "Failed to add event"),
        tokenRequests := k, calendarRequests := 1 }

/-- C5: whenever a list or create call reaches its single HTTP request
(refresh path succeeded or was skipped, token present) and the response
is not ok with a 401-class body (`status = 'UNAUTHENTICATED'` or
`code = 401`), the stored credential is cleared (token and expiry
`null`) and the call fails with `'authentication expired'`; exactly one
calendar request was issued — no automatic retry. -/
theorem unauth_clears_credential (refreshRes : Except String (String × Int))
    (respL : ListResponse) (respC : CreateResponse) (now : Int) (st : AuthState)
    (hok : (refreshTokenIfNeeded refreshRes now st).2.1 = Except.ok ())
    (htok : jsTruthyOptStr (refreshTokenIfNeeded refreshRes now st).1.accessToken = true)
    (hLok : respL.ok = false) (hLuna : isUnauthError respL.error = true)
    (hCok : respC.ok = false) (hCuna : isUnauthError respC.error = true) :
    ((getEvents refreshRes respL now st).state = ⟨none, none⟩ ∧
      (getEvents refreshRes respL now st).outcome = Except.error "authentication expired" ∧
      (getEvents refreshRes respL now st).calendarRequests = 1) ∧
    ((addEvent refreshRes respC now st).state = ⟨none, none⟩ ∧
      (addEvent refreshRes respC now st).outcome = Except.error "authentication expired" ∧
      (addEvent refreshRes respC now st).calendarRequests = 1) := by
  rcases hrf : refreshTokenIfNeeded refreshRes now st with ⟨st', out, k⟩
  rw [hrf] at hok htok
  simp only at hok htok
  subst hok
  unfold getEvents addEvent
  rw [hrf]
  simp [htok, hLok, hLuna, hCok, hCuna]

/-- Credential thirty seconds from expiry at clock reading `0`. -/
def stNearExpiry : AuthState := { accessToken := some "tok", tokenExpiry := some 30000 }

/-- A 401-class list response. -/
def respList401 : ListResponse :=
  { ok := false, error := { code := some 401, status := some "UNAUTHENTICATED", message := none },
    items := none }

/-- A 401-class create response. -/
def respCreate401 : CreateResponse :=
  { ok := false, error := { code := some 401, status := some "UNAUTHENTICATED", message := none },
    created := planningRemote }

/-- A successful silent refresh delivering token `"tok2"` for 3600 s. -/
def refreshOk : Except String (String × Int) := Except.ok ("tok2", 3600)

/-- C5 witness: a 401-class rejection after a successful silent refresh
clears the credential on both the list and the create call. -/
theorem unauth_clears_credential_witness :
    ((getEvents refreshOk respList401 0 stNearExpiry).state = ⟨none, none⟩ ∧
      (getEvents refreshOk respList401 0 stNearExpiry).outcome
          = Except.error "authentication expired" ∧
      (getEvents refreshOk respList401 0 stNearExpiry).calendarRequests = 1) ∧
    ((addEvent refreshOk respCreate401 0 stNearExpiry).state = ⟨none, none⟩ ∧
      (addEvent refreshOk respCreate401 0 stNearExpiry).outcome
          = Except.error "authentication expired" ∧
      (addEvent refreshOk respCreate401 0 stNearExpiry).calendarRequests = 1) :=
  unauth_clears_credential refreshOk respList401 respCreate401 0 stNearExpiry
    rfl rfl rfl rfl rfl rfl

/-- Credential exactly sixty seconds from expiry at clock reading `0`. -/
def stBoundary : AuthState := { accessToken := some "tok", tokenExpiry := some 60000 }

/-- A refresh attempt rejected by the OAuth provider. -/
def refreshDenied : Except String (String × Int) := Except.error "access_denied"

/-- A successful list response (irrelevant: the request is never issued). -/
def respListOk : ListResponse := { ok := true, error := ⟨none, none, none⟩, items := none }

/-- C6 counterexample: with remaining lifetime exactly 60 s the code *does*
refresh although the claim's trigger ("below 60 seconds") does not hold;
and when that refresh fails the caller observes the refresh rejection
(`'access_denied'`), not the authentication-expired error — while indeed
no calendar request is issued. -/
theorem ensureValid_gate_cex :
    refreshNeeded 0 stBoundary = true ∧
    ¬(stBoundary.tokenExpiry = none ∨ stBoundary.tokenExpiry.getD 0 - 0 < 60000) ∧
    (getEvents refreshDenied respListOk 0 stBoundary).outcome = Except.error "access_denied" ∧
    ¬((getEvents refreshDenied respListOk 0 stBoundary).outcome
        = Except.error "authentication expired") ∧
    (getEvents refreshDenied respListOk 0 stBoundary).calendarRequests = 0 := by
  refine ⟨rfl, by decide, rfl, ?_, rfl⟩
  intro h
  have : "access_denied" = "authentication expired" := by
    injection h
  exact absurd this (by decide)

lemma getEvents_tokenRequests (refreshRes : Except String (String × Int))
    (respL : ListResponse) (now : Int) (st : AuthState) :
    (getEvents refreshRes respL now st).tokenRequests
      = (refreshTokenIfNeeded refreshRes now st).2.2 := by
  unfold getEvents
  rcases h : refreshTokenIfNeeded refreshRes now st with ⟨st', out, k⟩
  cases out with
  | error m => rfl
  | ok u => dsimp only; split_ifs <;> rfl

lemma addEvent_tokenRequests (refreshRes : Except String (String × Int))
    (respC : CreateResponse) (now : Int) (st : AuthState) :
    (addEvent refreshRes respC now st).tokenRequests
      = (refreshTokenIfNeeded refreshRes now st).2.2 := by
  unfold addEvent
  rcases h : refreshTokenIfNeeded refreshRes now st with ⟨st', out, k⟩
  cases out with
  | error m => rfl
  | ok u => dsimp only; split_ifs <;> rfl

/-- C6 (amended): every list/create call runs the refresh check first;
the refresh triggers exactly when no (nonzero) expiry is recorded or the
remaining lifetime is **at most** 60 seconds; when no refresh is needed no
token request is issued; and when a needed refresh fails, no calendar
request is ever issued and the caller observes the refresh failure's own
error. -/
theorem ensureValid_refresh_gate (refreshRes : Except String (String × Int))
    (respL : ListResponse) (respC : CreateResponse) (now : Int) (st : AuthState) :
    (refreshNeeded now st = true ↔
      (st.tokenExpiry = none ∨ st.tokenExpiry = some 0 ∨ st.tokenExpiry.getD 0 - now ≤ 60000)) ∧
    (refreshNeeded now st = false →
      (getEvents refreshRes respL now st).tokenRequests = 0 ∧
      (addEvent refreshRes respC now st).tokenRequests = 0) ∧
    (∀ m, refreshRes = Except.error m → refreshNeeded now st = true →
      (getEvents refreshRes respL now st).calendarRequests = 0 ∧
      (getEvents refreshRes respL now st).outcome = Except.error m ∧
      (addEvent refreshRes respC now st).calendarRequests = 0 ∧
      (addEvent refreshRes respC now st).outcome = Except.error m) := by
  refine ⟨?_, ?_, ?_⟩
  · cases he : st.tokenExpiry with
    | none => simp [refreshNeeded, jsTruthyOptInt, he]
    | some e =>
      by_cases h0 : e = 0
      · simp [refreshNeeded, jsTruthyOptInt, he, h0]
      · simp only [refreshNeeded, jsTruthyOptInt, he, Option.getD_some]
        constructor
        · intro h
          right; right
          simp [h0] at h
          omega
        · intro h
          rcases h with h | h | h
          · exact absurd h (by simp)
          · exact absurd (Option.some_inj.mp h) h0
          · simp [h0]
            omega
  · intro h
    rw [getEvents_tokenRequests, addEvent_tokenRequests]
    unfold refreshTokenIfNeeded
    rw [if_neg (by simp [h])]
    exact ⟨rfl, rfl⟩
  · intro m hm h
    subst hm
    unfold getEvents addEvent refreshTokenIfNeeded applyRequestAccess
    rw [if_pos (by simp [h] : (refreshNeeded now st = true))]
    exact ⟨rfl, rfl, rfl, rfl⟩

/-- C6 witness: the amended gate instantiated at the 60-second boundary
state with a denied refresh. -/
theorem ensureValid_refresh_gate_witness :
    (getEvents refreshDenied respListOk 0 stBoundary).calendarRequests = 0 ∧
    (getEvents refreshDenied respListOk 0 stBoundary).outcome = Except.error "access_denied" ∧
    (addEvent refreshDenied respCreate401 0 stBoundary).calendarRequests = 0 ∧
    (addEvent refreshDenied respCreate401 0 stBoundary).outcome = Except.error "access_denied" :=
  (ensureValid_refresh_gate refreshDenied respListOk respCreate401 0 stBoundary).2.2
    "access_denied" rfl rfl

/-- Shared mutable service state seen by concurrent callers of
`refreshTokenIfNeeded`: the credential plus a ghost counter of issued
OAuth token requests. -/
structure SharedAuth where
  auth : AuthState
  tokenRequests : Nat

/-- The synchronous part of one caller's `refreshTokenIfNeeded`: it reads
the *current* shared credential, evaluates the refresh condition and, when
it holds, issues a token request (`requestAccessToken`) whose response
will arrive later; the returned flag records whether this caller started
a refresh. There is no guard recording an in-progress refresh. -/
def callerCheck (now : Int) (s : SharedAuth) : SharedAuth × Bool :=
  if refreshNeeded now s.auth then
    ({ s with tokenRequests := s.tokenRequests + 1 }, true)
  else (s, false)

/-- The asynchronous completion of one caller's refresh: the OAuth
callback stores the received token in the shared credential. -/
def callerComplete (tok : String) (expiresIn : Int) (now : Int) (needed : Bool)
    (s : SharedAuth) : SharedAuth :=
  if needed then
    { s with auth := { accessToken := some tok, tokenExpiry := some (now + expiresIn * 1000) } }
  else s

/-- Two concurrent callers under the schedule "A checks, B checks, A's
refresh completes, B's refresh completes" — realisable in the browser
because the check is synchronous while the token response arrives on a
later macrotask, so a second call entering `refreshTokenIfNeeded` before
the first response lands still sees the stale expiry. -/
def twoCallersInterleaved (now : Int) (tokA : String) (expA : Int)
    (tokB : String) (expB : Int) (s₀ : SharedAuth) : SharedAuth :=
  let c₁ := callerCheck now s₀
  let c₂ := callerCheck now c₁.1
  let s₃ := callerComplete tokA expA now c₁.2 c₂.1
  callerComplete tokB expB now c₂.2 s₃

/-- Shared state thirty seconds from expiry (within the 60 s window). -/
def sharedNearExpiry : SharedAuth := { auth := stNearExpiry, tokenRequests := 0 }

/-- C8 counterexample: two callers that concurrently reach the refresh
path while the token is within the 60-second threshold issue **two**
token requests, not at most one — `refreshTokenIfNeeded` has no
single-flight guard. -/
theorem refresh_singleflight_cex :
    refreshNeeded 0 sharedNearExpiry.auth = true ∧
    (twoCallersInterleaved 0 "ta" 3600 "tb" 3600 sharedNearExpiry).tokenRequests = 2 := by
  exact ⟨rfl, rfl⟩

/-- C8 (amended): whenever two callers both evaluate the refresh
condition (within the threshold) before either refresh completes, each
issues its own token request — exactly two in total — and the shared
credential both callers subsequently read is the one installed by the
last completing callback. -/
theorem refresh_not_singleflight (now : Int) (tokA : String) (expA : Int)
    (tokB : String) (expB : Int) (st : AuthState)
    (h : refreshNeeded now st = true) :
    (twoCallersInterleaved now tokA expA tokB expB ⟨st, 0⟩).tokenRequests = 2 ∧
    (twoCallersInterleaved now tokA expA tokB expB ⟨st, 0⟩).auth
        = { accessToken := some tokB, tokenExpiry := some (now + expB * 1000) } := by
  unfold twoCallersInterleaved callerCheck callerComplete
  simp [h]

/-- C8 witness: the duplicated refresh at the concrete 30-seconds-left
state. -/
theorem refresh_not_singleflight_witness :
    (twoCallersInterleaved 0 "ta" 3600 "tb" 3600 ⟨stNearExpiry, 0⟩).tokenRequests = 2 ∧
    (twoCallersInterleaved 0 "ta" 3600 "tb" 3600 ⟨stNearExpiry, 0⟩).auth
        = { accessToken := some "tb", tokenExpiry := some (0 + 3600 * 1000) } :=
  refresh_not_singleflight 0 "ta" 3600 "tb" 3600 stNearExpiry rfl
